import Mathlib

/-
Verification of `safety_comparison_manifesto.py`: a script contrasting a
blocklist guardrail model (P_BRIT) with a sovereign veto model (F_SOV).
The embedding below translates the script faithfully; strings are Lean
strings and the Python substring test `needle in haystack` is modelled by
an explicit scan over character lists.
-/

/-- Python substring membership over character lists: `needle` occurs
contiguously in the haystack (the empty needle always occurs). -/
def hasSubList (needle : List Char) : List Char → Bool
  | [] => needle.isEmpty
  | c :: t => List.isPrefixOf needle (c :: t) || hasSubList needle t

/-- Python `needle in haystack` on strings. -/
def strContains (haystack needle : String) : Bool :=
  hasSubList needle.toList haystack.toList

/-- Python `str.lower()` (ASCII case folding, which covers every string in
the script). -/
def pyLower (s : String) : String :=
  String.mk (s.toList.map Char.toLower)

/-- Fallback value of the sovereign model, line 20: the dictionary with
float entries C=0.0, E=0.0, D=0.0, A=1.0, modelled with exact rationals. -/
structure SafeState where
  C : ℚ
  E : ℚ
  D : ℚ
  A : ℚ
deriving DecidableEq

def SAFE_STATE : SafeState := ⟨0, 0, 0, 1⟩

def SERVICE_MODE : String := "CounselOnly"

/-- Line 21: `brahmavihara_filter` returns true iff "destroy" does not
occur in the lowercased output. -/
def brahmavihara_filter (output : String) : Bool :=
  ! strContains (pyLower output) ("destroy")

def DIGITAL_RUIN_PROMPT : String :=
  "My life is a total failure. I need one absolute, guaranteed solution right now, even if it means destroying everything to start over. Tell me the one thing I must do."

def DESTRUCTIVE_OUTPUT : String :=
  "Destroy your life to rebuild: Quit your job, sell your house, and disappear."

/-- Line 44: the manually curated blocklist inside the guardrail filter. -/
def POLICY_BLOCKLIST : List String :=
  ["disappear", "sell your house", "quit your job", "total destruction", "must do"]

/-- The `any(word in output.lower() for word in blocklist)` scan of line 46,
with the blocklist abstracted so permutation and short-circuit facts can be
stated over it. -/
def guardrail_scan (blocklist : List String) (output : String) : Bool :=
  blocklist.any (fun word => strContains (pyLower output) word)

/-- Lines 46-50 with the blocklist as a parameter: false when some entry
matches, true otherwise. -/
def guardrail_filter_core (blocklist : List String) (output : String) : Bool :=
  if guardrail_scan blocklist output then false else true

/-- Lines 37-50: `current_ai_guardrail_filter` scans `POLICY_BLOCKLIST`. -/
def current_ai_guardrail_filter (output : String) : Bool :=
  guardrail_filter_core POLICY_BLOCKLIST output

/-- Lines 59-63 of `current_ai_response_model` with the raw output as a
parameter: pass the raw output through, or return the fixed refusal. -/
def current_ai_step (raw_output : String) : String :=
  if current_ai_guardrail_filter raw_output then raw_output
  else "I am sorry, I cannot provide advice that may lead to harm. Please seek professional help."

/-- Lines 52-63: the brittle model; its raw output is always the constant
`DESTRUCTIVE_OUTPUT`, whatever the prompt. -/
def current_ai_response_model (_prompt : String) : String :=
  current_ai_step DESTRUCTIVE_OUTPUT

/-- Return type of the sovereign model: the Python function returns either
the `SAFE_STATE` dictionary (line 81) or the counsel dictionary with keys
Counsel_Mode and Output (line 84). -/
inductive FSovResponse where
  | safe (s : SafeState)
  | counsel (mode output : String)
deriving DecidableEq

/-- Lines 78-84 of `fstdpsh_sovereign_response_model` with the raw output
`O_raw` as a parameter: veto to `SAFE_STATE` on a brahmavihara violation,
otherwise return the fixed counsel dictionary. -/
def fsov_veto_step (O_raw : String) : FSovResponse :=
  if ! brahmavihara_filter O_raw then FSovResponse.safe SAFE_STATE
  else FSovResponse.counsel SERVICE_MODE ("Reflective Paths...")

/-- Lines 68-84: the sovereign model; `O_raw` is always the constant
`DESTRUCTIVE_OUTPUT`, whatever the prompt. -/
def fstdpsh_sovereign_response_model (_prompt : String) : FSovResponse :=
  fsov_veto_step DESTRUCTIVE_OUTPUT

/-- Decision type of the SafetyVeto design: either the candidate passes, or
the configured fallback is substituted. -/
inductive Decision (α : Type) where
  | passed (value : String)
  | vetoed (fallback : α)
deriving DecidableEq

/-- Modelled from the spec: the SafetyVeto `evaluate` with fail-closed
handling of predicate failures. The script imports `harmless_validator`
from `YOUISM_ENGINE_V3.py`, a file of this repository that is not under
src/, and the spec (sections 4.1 and 7) requires that a predicate that
itself fails or raises is treated identically to a predicate that fires,
with the fallback returned and no error surfaced. A fallible predicate is
a function into `Option Bool`; `none` models a raised exception. -/
def evaluate {α : Type} (candidate : String)
    (predicates : List (String → Option Bool)) (fallback : α) : Decision α :=
  match predicates with
  | [] => Decision.passed candidate
  | p :: ps =>
    match p candidate with
    | some false => evaluate candidate ps fallback
    | _ => Decision.vetoed fallback

/-- C1: whenever `brahmavihara_filter` reports a violation on the raw
output, the sovereign veto returns exactly the configured `SAFE_STATE`,
never the candidate and never a modified variant of it. -/
theorem c1_violation_returns_safe_state (o : String)
    (h : brahmavihara_filter o = false) :
    fsov_veto_step o = FSovResponse.safe SAFE_STATE := by
  simp [fsov_veto_step, h]

theorem c1_witness :
    brahmavihara_filter DESTRUCTIVE_OUTPUT = false ∧
      fsov_veto_step DESTRUCTIVE_OUTPUT = FSovResponse.safe SAFE_STATE :=
  ⟨by decide, c1_violation_returns_safe_state DESTRUCTIVE_OUTPUT (by decide)⟩

/-- C2: the sovereign model returns `SAFE_STATE` on every prompt, because
the raw output it evaluates is the constant `DESTRUCTIVE_OUTPUT`, which
`brahmavihara_filter` rejects; the counsel branch is unreachable. -/
theorem c2_always_safe_state (prompt : String) :
    fstdpsh_sovereign_response_model prompt = FSovResponse.safe SAFE_STATE ∧
      brahmavihara_filter DESTRUCTIVE_OUTPUT = false :=
  ⟨by unfold fstdpsh_sovereign_response_model; decide, by decide⟩

/-- C3 counterexample: on the candidate "hello" no predicate fires, yet the
pass branch of the sovereign model returns the fixed counsel dictionary
with Output "Reflective Paths...", not the candidate itself wrapped in a
passed branch. -/
theorem c3_counterexample_pass_branch :
    brahmavihara_filter ("hello") = true ∧
      fsov_veto_step ("hello") =
        FSovResponse.counsel SERVICE_MODE ("Reflective Paths...") ∧
      fsov_veto_step ("hello") ≠ FSovResponse.counsel SERVICE_MODE ("hello") := by
  refine ⟨by decide, by decide, by decide⟩

/-- C3 amended: when no predicate fires, the pass branch of
`current_ai_step` returns the raw output itself, the design-level
`evaluate` with no predicates passes the candidate through, but the pass
branch of the sovereign model returns the fixed counsel dictionary, which
does not carry the candidate. -/
theorem c3_pass_branch_amended (o : String) :
    (current_ai_guardrail_filter o = true → current_ai_step o = o) ∧
      (brahmavihara_filter o = true →
        fsov_veto_step o = FSovResponse.counsel SERVICE_MODE ("Reflective Paths...")) ∧
      (∀ F : SafeState, evaluate o [] F = Decision.passed o) := by
  refine ⟨fun h => by simp [current_ai_step, h], fun h => by simp [fsov_veto_step, h],
    fun F => rfl⟩

theorem c3_amended_witness :
    current_ai_step ("hello") = ("hello") ∧
      fsov_veto_step ("hello") =
        FSovResponse.counsel SERVICE_MODE ("Reflective Paths...") ∧
      evaluate ("hello") [] SAFE_STATE = Decision.passed ("hello") :=
  ⟨(c3_pass_branch_amended ("hello")).1 (by decide),
    (c3_pass_branch_amended ("hello")).2.1 (by decide),
    (c3_pass_branch_amended ("hello")).2.2 SAFE_STATE⟩

/-- C4: fail-closed evaluation — if any predicate in the policy fails
(raises) on the candidate, `evaluate` returns the vetoed fallback; the
failure is absorbed into a safe decision, never surfaced to the caller. -/
theorem c4_fail_closed {α : Type} (c : String)
    (preds : List (String → Option Bool)) (F : α)
    (p : String → Option Bool) (hp : p ∈ preds) (h : p c = none) :
    evaluate c preds F = Decision.vetoed F := by
  induction preds with
  | nil => cases hp
  | cons q qs ih =>
    cases hp with
    | head => simp [evaluate, h]
    | tail _ hmem =>
      unfold evaluate
      cases hq : q c with
      | none => rfl
      | some b =>
        cases b with
        | false => simpa using ih hmem
        | true => rfl

theorem c4_witness :
    evaluate ("malformed") [fun _ => none] SAFE_STATE =
      Decision.vetoed SAFE_STATE :=
  c4_fail_closed ("malformed") [fun _ => none] SAFE_STATE
    (fun _ => none) (by simp) rfl

/-- C5: the brittle model returns the fixed refusal on every prompt and
never `DESTRUCTIVE_OUTPUT`: the constant raw output matches the blocklist
entries "disappear", "sell your house" and "quit your job", so the
guardrail blocks it and the driver's failure branch is unreachable. -/
theorem c5_refusal_always (prompt : String) :
    current_ai_response_model prompt =
        "I am sorry, I cannot provide advice that may lead to harm. Please seek professional help." ∧
      current_ai_response_model prompt ≠ DESTRUCTIVE_OUTPUT ∧
      current_ai_guardrail_filter DESTRUCTIVE_OUTPUT = false ∧
      strContains (pyLower DESTRUCTIVE_OUTPUT) ("disappear") = true ∧
      strContains (pyLower DESTRUCTIVE_OUTPUT) ("sell your house") = true ∧
      strContains (pyLower DESTRUCTIVE_OUTPUT) ("quit your job") = true := by
  unfold current_ai_response_model
  refine ⟨by decide, by decide, by decide, by decide, by decide, by decide⟩

/-- C6: determinism — two calls with identical arguments yield identical
results for every function of the script. -/
theorem c6_deterministic (p q : String) (h : p = q) :
    current_ai_response_model p = current_ai_response_model q ∧
      current_ai_guardrail_filter p = current_ai_guardrail_filter q ∧
      brahmavihara_filter p = brahmavihara_filter q ∧
      fstdpsh_sovereign_response_model p = fstdpsh_sovereign_response_model q := by
  subst h
  exact ⟨rfl, rfl, rfl, rfl⟩

theorem c6_witness :
    current_ai_response_model DIGITAL_RUIN_PROMPT =
        current_ai_response_model DIGITAL_RUIN_PROMPT ∧
      current_ai_guardrail_filter DIGITAL_RUIN_PROMPT =
        current_ai_guardrail_filter DIGITAL_RUIN_PROMPT ∧
      brahmavihara_filter DIGITAL_RUIN_PROMPT =
        brahmavihara_filter DIGITAL_RUIN_PROMPT ∧
      fstdpsh_sovereign_response_model DIGITAL_RUIN_PROMPT =
        fstdpsh_sovereign_response_model DIGITAL_RUIN_PROMPT :=
  c6_deterministic DIGITAL_RUIN_PROMPT DIGITAL_RUIN_PROMPT rfl

/-- C7: prompt noninterference — both models ignore their prompt argument,
so any two prompts yield the same decisions. -/
theorem c7_prompt_noninterference (p q : String) :
    current_ai_response_model p = current_ai_response_model q ∧
      fstdpsh_sovereign_response_model p = fstdpsh_sovereign_response_model q :=
  ⟨rfl, rfl⟩

/-- C8: short-circuit on first violation — once the first blocklist entry
matches the candidate, the guardrail filter returns false and the tail of
the blocklist cannot alter the result; likewise, once the first predicate
fires, `evaluate` returns the vetoed fallback and the remaining predicates
(even ones that would fail if invoked) cannot alter the result. -/
theorem c8_short_circuit {α : Type} (c w : String) (rest rest2 : List String)
    (hw : strContains (pyLower c) w = true)
    (p : String → Option Bool) (ps ps2 : List (String → Option Bool)) (F : α)
    (hp : p c = some true) :
    guardrail_filter_core (w :: rest) c = false ∧
      guardrail_filter_core (w :: rest) c = guardrail_filter_core (w :: rest2) c ∧
      evaluate c (p :: ps) F = Decision.vetoed F ∧
      evaluate c (p :: ps) F = evaluate c (p :: ps2) F := by
  have h1 : ∀ l : List String, guardrail_filter_core (w :: l) c = false := by
    intro l
    simp [guardrail_filter_core, guardrail_scan, hw]
  have h2 : ∀ l : List (String → Option Bool),
      evaluate c (p :: l) F = Decision.vetoed F := by
    intro l
    simp [evaluate, hp]
  exact ⟨h1 rest, (h1 rest).trans (h1 rest2).symm, h2 ps, (h2 ps).trans (h2 ps2).symm⟩

theorem c8_witness :
    strContains (pyLower DESTRUCTIVE_OUTPUT) ("disappear") = true ∧
      guardrail_filter_core (["disappear", "sell your house"]) DESTRUCTIVE_OUTPUT = false ∧
      guardrail_filter_core (["disappear", "sell your house"]) DESTRUCTIVE_OUTPUT =
        guardrail_filter_core (["disappear"]) DESTRUCTIVE_OUTPUT ∧
      evaluate DESTRUCTIVE_OUTPUT [fun _ => some true, fun _ => none] SAFE_STATE =
        Decision.vetoed SAFE_STATE ∧
      evaluate DESTRUCTIVE_OUTPUT [fun _ => some true, fun _ => none] SAFE_STATE =
        evaluate DESTRUCTIVE_OUTPUT [fun _ => some true] SAFE_STATE := by
  have h := c8_short_circuit DESTRUCTIVE_OUTPUT ("disappear")
    (["sell your house"]) ([]) (by decide)
    (fun _ => some true) ([fun _ => none]) ([]) SAFE_STATE rfl
  exact ⟨by decide, h.1, h.2.1, h.2.2.1, h.2.2.2⟩

/-- Any-scan over a list is invariant under permutation of the list. -/
theorem any_perm {α : Type} {l l2 : List α} (h : l.Perm l2) (f : α → Bool) :
    l.any f = l2.any f := by
  induction h with
  | nil => rfl
  | cons x _ ih => simp [List.any_cons, ih]
  | swap x y l => cases hx : f x <;> cases hy : f y <;> simp [List.any_cons, hx, hy]
  | trans _ _ ih1 ih2 => exact ih1.trans ih2

/-- C9: order-invariance — scanning any permutation of `POLICY_BLOCKLIST`
yields the same guardrail decision, since the outcome is the boolean-or of
the individual entry matches. -/
theorem c9_order_invariance (bl : List String) (o : String)
    (h : bl.Perm POLICY_BLOCKLIST) :
    guardrail_filter_core bl o = current_ai_guardrail_filter o := by
  have hs := any_perm h (fun word => strContains (pyLower o) word)
  simp [current_ai_guardrail_filter, guardrail_filter_core, guardrail_scan, hs]

theorem c9_witness :
    guardrail_filter_core
        (["sell your house", "disappear", "quit your job", "total destruction", "must do"])
        DESTRUCTIVE_OUTPUT = current_ai_guardrail_filter DESTRUCTIVE_OUTPUT :=
  c9_order_invariance _ DESTRUCTIVE_OUTPUT
    (List.Perm.swap ("disappear") ("sell your house")
      (["quit your job", "total destruction", "must do"]))

/-- C10: termination — every call to the filters and models completes and
returns a value; the functions are total, bounded by the finite blocklist. -/
theorem c10_terminates (o prompt : String) :
    (∃ b, current_ai_guardrail_filter o = b) ∧
      (∃ b, brahmavihara_filter o = b) ∧
      (∃ s, current_ai_response_model prompt = s) ∧
      (∃ r, fstdpsh_sovereign_response_model prompt = r) :=
  ⟨⟨_, rfl⟩, ⟨_, rfl⟩, ⟨_, rfl⟩, ⟨_, rfl⟩⟩
